import Mathlib

/-
  A shallow embedding of honeybee_energy/construction.py: the construction
  facade, the film-coefficient formulas, the temperature-profile builder and
  the iterative layered-resistance solver for window constructions.

  Numbers are modelled as exact rationals.  The transcendental operations
  used by the film formulas (math.sin, math.exp and the fractional powers)
  and the generic-air property functions are not defined in construction.py;
  they are abstracted as function parameters (RealOps, AirModel), so every
  theorem quantifies over them unless a claim pins a concrete instance.
  Material layers are modelled as a variant type carrying exactly the
  capability functions construction.py calls on them; the bodies of those
  functions live in the material modules, outside construction.py, so they
  are arbitrary function fields here.
-/

/-- Entries of the emissivity record built alongside the seed resistance
vector by WindowConstruction._layered_r_value_initial: None for glazing
layers, a single value for boundary shades, a (back, front) pair for gas
layers and between-glass shades. -/
inductive EmissEntry
  | none
  | single (e : ℚ)
  | pair (eBack eFront : ℚ)
deriving DecidableEq, Repr

/-- The material-layer kinds the construction module dispatches on, with the
capability functions it calls on each.  Opaque covers the
_EnergyMaterialOpaqueBase classes, Glazing the EnergyWindowMaterialGlazing
class, SimpleGlazSys the EnergyWindowMaterialSimpleGlazSys class, Gas the
_EnergyWindowMaterialGasBase classes and Shade the
_EnergyWindowMaterialShadeBase classes (shade and blind dispatch identically
inside construction.py).  Gas carries u_value(delta_t, e_back, e_front,
t_kelvin) and u_value_at_angle(delta_t, e_back, e_front, height, angle,
t_kelvin, pressure); Shade carries emissivity, r_value_exterior and
r_value_interior(delta_t, e, height, angle, t_kelvin, pressure) and
r_value_between(delta_t, e_back, e_front, height, angle, t_kelvin,
pressure). -/
inductive EnergyMaterial
  | Opaque (rValue thermalAbsorptance : ℚ)
  | Glazing (rValue emissivity emissivityBack : ℚ)
  | SimpleGlazSys (rValue : ℚ)
  | Gas (uValue : ℚ → ℚ → ℚ → ℚ → ℚ)
      (uValueAtAngle : ℚ → ℚ → ℚ → ℚ → ℚ → ℚ → ℚ → ℚ)
  | Shade (emissivity : ℚ)
      (rValueExterior rValueInterior : ℚ → ℚ → ℚ → ℚ → ℚ → ℚ → ℚ)
      (rValueBetween : ℚ → ℚ → ℚ → ℚ → ℚ → ℚ → ℚ → ℚ)

/-- Placeholder material: only ever consulted behind a nonempty-list guard. -/
def matDefault : EnergyMaterial := EnergyMaterial.Glazing 0 0 0

def EnergyMaterial.isGas : EnergyMaterial → Bool
  | .Gas _ _ => true
  | _ => false

/-- isinstance(mat, EnergyWindowMaterialGlazing-proper): the branch taken by
the validator after SimpleGlazSys has been ruled out. -/
def EnergyMaterial.isGlazing : EnergyMaterial → Bool
  | .Glazing _ _ _ => true
  | _ => false

/-- isinstance(mat, _EnergyWindowMaterialGlazingBase): the glazing module
defines EnergyWindowMaterialSimpleGlazSys alongside EnergyWindowMaterialGlazing
under that base, so both match. -/
def EnergyMaterial.isGlazingBase : EnergyMaterial → Bool
  | .Glazing _ _ _ => true
  | .SimpleGlazSys _ => true
  | _ => false

def EnergyMaterial.isShade : EnergyMaterial → Bool
  | .Shade _ _ _ _ => true
  | _ => false

def EnergyMaterial.isSimpleGlazSys : EnergyMaterial → Bool
  | .SimpleGlazSys _ => true
  | _ => false

def EnergyMaterial.isOpaqueM : EnergyMaterial → Bool
  | .Opaque _ _ => true
  | _ => false

/-- mat.r_value.  The construction module reads r_value only on opaque
layers, glazing-base layers and the single layer of a gap-free window; the
Gas and Shade branches are never consulted by any embedded code path. -/
def EnergyMaterial.rValue : EnergyMaterial → ℚ
  | .Opaque r _ => r
  | .Glazing r _ _ => r
  | .SimpleGlazSys r => r
  | .Gas _ _ => 0
  | .Shade _ _ _ _ => 0

/-- mat.emissivity, as an Option: reading it on a material kind that lacks
the attribute is an AttributeError in the source. -/
def EnergyMaterial.emissivity : EnergyMaterial → Option ℚ
  | .Glazing _ e _ => some e
  | .Shade e _ _ _ => some e
  | _ => Option.none

/-- mat.emissivity_back, as an Option (defined on glazing layers only). -/
def EnergyMaterial.emissivityBack : EnergyMaterial → Option ℚ
  | .Glazing _ _ eb => some eb
  | _ => Option.none

/-- try: mat.emissivity_back except AttributeError: mat.emissivity -/
def emissivityBackFallback (m : EnergyMaterial) : Option ℚ :=
  match m.emissivityBack with
  | some e => some e
  | Option.none => m.emissivity

/-- mat.thermal_absorptance (opaque materials; other kinds never reach the
opaque-construction accessors). -/
def EnergyMaterial.thermalAbsorptance : EnergyMaterial → ℚ
  | .Opaque _ a => a
  | _ => 0

/-- The generic-air property functions consumed by _ConstructionBase.in_h.
They come from the gas material module, outside construction.py, and are
kept abstract. -/
structure AirModel where
  densityAtTemperature : ℚ → ℚ → ℚ
  specificHeatAtTemperature : ℚ → ℚ
  viscosityAtTemperature : ℚ → ℚ
  conductivityAtTemperature : ℚ → ℚ

/-- The transcendental operations used by in_h: math.sin of an angle given
in degrees, math.exp, and the fractional powers x ** (1/3), x ** (1/4) and
x ** (1/5). -/
structure RealOps where
  sinDeg : ℚ → ℚ
  expQ : ℚ → ℚ
  powThird : ℚ → ℚ
  powQuarter : ℚ → ℚ
  powFifth : ℚ → ℚ

/-- _ConstructionBase.out_h_simple: fixed value 23 (ISO 10292). -/
def outHSimple : ℚ := 23

/-- _ConstructionBase.in_h_simple: 3.6 + 4.4 * inside_emissivity / 0.84. -/
def inHSimple (insideEmissivity : ℚ) : ℚ :=
  3.6 + 4.4 * insideEmissivity / 0.84

/-- _ConstructionBase.out_h: convective term 4 + 4 * wind_speed plus
radiative term 4 * 5.6697e-8 * outside_emissivity * t_kelvin ** 3. -/
def outH (outsideEmissivity windSpeed tKelvin : ℚ) : ℚ :=
  4 + 4 * windSpeed + 4 * 5.6697e-8 * outsideEmissivity * tKelvin ^ 3

/-- The critical Rayleigh number of the 15..90 degree branch of in_h:
2.5e5 * (exp(0.72 * angle) / sin(angle)) ** (1/5). -/
def rayleighCritical (ops : RealOps) (angle : ℚ) : ℚ :=
  2.5e5 * ops.powFifth (ops.expQ (0.72 * angle) / ops.sinDeg angle)

/-- The angle-dependent Nusselt-number correlation of _ConstructionBase.in_h,
with the source's branch structure: angle < 15, 15 <= angle <= 90 (split on
Ra < Ra_c), 90 < angle <= 179, angle > 179. -/
def nusseltNumber (ops : RealOps) (rayleighH angle : ℚ) : ℚ :=
  if angle < 15 then 0.13 * ops.powThird rayleighH
  else if angle ≤ 90 then
    let sinA := ops.sinDeg angle
    let rayleighC := rayleighCritical ops angle
    if rayleighH < rayleighC then 0.56 * ops.powQuarter (rayleighH * sinA)
    else 0.56 * ops.powQuarter (rayleighC * sinA) +
      0.13 * (ops.powThird rayleighH - ops.powThird rayleighC)
  else if angle ≤ 179 then 0.56 * ops.powQuarter (rayleighH * ops.sinDeg angle)
  else 0.58 * ops.powFifth rayleighH

/-- The formula of the 90 < angle <= 179 branch of the correlation:
0.56 * (Ra * sin(angle)) ** (1/4). -/
def nusseltObtuseFormula (ops : RealOps) (rayleighH angle : ℚ) : ℚ :=
  0.56 * ops.powQuarter (rayleighH * ops.sinDeg angle)

/-- _ConstructionBase.in_h: Rayleigh number from the air-property model,
Nusselt number from the angle correlation, convective term
nusselt * conductivity / height plus the radiative term. -/
def inH (air : AirModel) (ops : RealOps) (insideEmissivity : ℚ)
    (tKelvin deltaT height angle pressure : ℚ) : ℚ :=
  let rayNumerator := (air.densityAtTemperature tKelvin pressure) ^ 2 *
    height ^ 3 * 9.81 * air.specificHeatAtTemperature tKelvin * deltaT
  let rayDenominator := tKelvin * air.viscosityAtTemperature tKelvin *
    air.conductivityAtTemperature tKelvin
  let rayleighH := |rayNumerator / rayDenominator|
  nusseltNumber ops rayleighH angle *
    (air.conductivityAtTemperature tKelvin / height) +
    4 * 5.6697e-8 * insideEmissivity * tKelvin ^ 3

/-- The accumulation loop of
_ConstructionBase._temperature_profile_from_r_values: starting from the
outdoor temperature, each resistance appends the previous boundary
temperature plus delta_t * (r_val / r_factor). -/
def temperatureAccum (deltaT rFactor : ℚ) : ℚ → List ℚ → List ℚ
  | t, [] => [t]
  | t, r :: rs => t :: temperatureAccum deltaT rFactor (t + deltaT * (r / rFactor)) rs

/-- _ConstructionBase._temperature_profile_from_r_values. -/
def temperatureProfileFromRValues (rValues : List ℚ)
    (outsideTemperature insideTemperature : ℚ) : List ℚ :=
  temperatureAccum (insideTemperature - outsideTemperature) rValues.sum
    outsideTemperature rValues

/-- The per-layer loop of the WindowConstruction.materials setter, with its
two running flags: glazing_layer (the previous layer was a glazing layer)
and has_shade.  n is the total number of layers, i the index of the head of
the remaining list. -/
def validateLayers (n : ℕ) : ℕ → Bool → Bool → List EnergyMaterial → Bool
  | _, _, _, [] => true
  | i, glazingLayer, hasShade, m :: rest =>
    match m with
    | .SimpleGlazSys _ => decide (n = 1) &&
        validateLayers n (i + 1) glazingLayer hasShade rest
    | .Gas _ _ => glazingLayer && validateLayers n (i + 1) false hasShade rest
    | .Glazing _ _ _ => !glazingLayer &&
        validateLayers n (i + 1) true hasShade rest
    | .Shade _ _ _ _ => (decide (i = 0) || glazingLayer) && !hasShade &&
        validateLayers n (i + 1) false true rest
    | .Opaque _ _ => false

/-- The WindowConstruction.materials setter: length between 1 and 8, no gas
layer on either boundary, and the per-layer adjacency rules.  True exactly
when the assignment succeeds (an assert failure leaves the construction
uncreated). -/
def validateWindowMaterials (mats : List EnergyMaterial) : Bool :=
  decide (0 < mats.length) && decide (mats.length ≤ 8) &&
    !(mats.headD matDefault).isGas && !(mats.getLastD matDefault).isGas &&
    validateLayers mats.length 0 false false mats

/-- The OpaqueConstruction.materials setter: every layer is an opaque
energy material and the length is between 1 and 10. -/
def validateOpaqueMaterials (mats : List EnergyMaterial) : Bool :=
  mats.all EnergyMaterial.isOpaqueM && decide (0 < mats.length) &&
    decide (mats.length ≤ 10)

structure OpaqueConstruction where
  materials : List EnergyMaterial

structure WindowConstruction where
  materials : List EnergyMaterial

/-- Constructing an OpaqueConstruction runs the materials setter; an assert
failure means no construction is produced. -/
def OpaqueConstruction.mk? (mats : List EnergyMaterial) :
    Option OpaqueConstruction :=
  if validateOpaqueMaterials mats then some ⟨mats⟩ else Option.none

/-- Constructing a WindowConstruction runs the materials setter; an assert
failure means no construction is produced. -/
def WindowConstruction.mk? (mats : List EnergyMaterial) :
    Option WindowConstruction :=
  if validateWindowMaterials mats then some ⟨mats⟩ else Option.none

def countShades : List EnergyMaterial → ℕ
  | [] => 0
  | m :: rest => (if m.isShade then 1 else 0) + countShades rest

/-- A materials list consisting of exactly one shade/blind layer. -/
def isSingleShade : List EnergyMaterial → Bool
  | [m] => m.isShade
  | _ => false

/-- WindowConstruction.gap_count, including the source's literal comparison
count == len(self.materials) - 1 in the shade branch (count, not i, is
compared against the last index). -/
def gapCountAux (n : ℕ) : ℕ → ℕ → List EnergyMaterial → ℕ
  | _, count, [] => count
  | i, count, m :: rest =>
    match m with
    | .Gas _ _ => gapCountAux n (i + 1) (count + 1) rest
    | .Shade _ _ _ _ =>
      if i = 0 ∨ count = n - 1 then gapCountAux n (i + 1) (count + 1) rest
      else gapCountAux n (i + 1) (count + 2) rest
    | _ => gapCountAux n (i + 1) count rest

def gapCount (mats : List EnergyMaterial) : ℕ :=
  gapCountAux mats.length 0 0 mats

/-- WindowConstruction.inside_emissivity: 0.84 for a simple glazing system,
otherwise emissivity_back of the last layer with an AttributeError fallback
to emissivity.  The final default is never consulted on a constructed
window (the last layer of a validated list is a glazing or shade layer). -/
def WindowConstruction.insideEmissivity (mats : List EnergyMaterial) : ℚ :=
  if (mats.headD matDefault).isSimpleGlazSys then 0.84
  else (emissivityBackFallback (mats.getLastD matDefault)).getD 0

/-- WindowConstruction.outside_emissivity: 0.84 for a simple glazing system,
otherwise emissivity of the first layer (never a gas layer once
validated). -/
def WindowConstruction.outsideEmissivity (mats : List EnergyMaterial) : ℚ :=
  if (mats.headD matDefault).isSimpleGlazSys then 0.84
  else ((mats.headD matDefault).emissivity).getD 0

/-- OpaqueConstruction.inside_emissivity: thermal absorptance of the last
layer. -/
def OpaqueConstruction.insideEmissivity (mats : List EnergyMaterial) : ℚ :=
  (mats.getLastD matDefault).thermalAbsorptance

/-- OpaqueConstruction.outside_emissivity: thermal absorptance of the first
layer. -/
def OpaqueConstruction.outsideEmissivity (mats : List EnergyMaterial) : ℚ :=
  (mats.headD matDefault).thermalAbsorptance

/-- _ConstructionBase.r_value: sum of the intrinsic material resistances
(this base accessor is the one opaque constructions use). -/
def OpaqueConstruction.rValue (c : OpaqueConstruction) : ℚ :=
  (c.materials.map EnergyMaterial.rValue).sum

/-- _ConstructionBase.r_factor: r_value plus the two simplified film
resistances, in closed form with no iteration. -/
def OpaqueConstruction.rFactor (c : OpaqueConstruction) : ℚ :=
  c.rValue + 1 / outHSimple +
    1 / inHSimple (OpaqueConstruction.insideEmissivity c.materials)

/-- Python materials[i - 1]: ordinary indexing for i >= 1; at i = 0 the
negative index -1 wraps around to the last element. -/
def prevMaterial (mats : List EnergyMaterial) (i : ℕ) : Option EnergyMaterial :=
  if i = 0 then mats.getLast? else mats.get? (i - 1)

/-- One entry of WindowConstruction._layered_r_value_initial's per-layer
loop, at global index i; deltaT is the already-divided per-gap temperature
drop and avgT the mean-temperature guess.  Emissivity lookups on the
neighbouring layers return none when the index is out of range or the
neighbour lacks the attribute (an IndexError or AttributeError in the
source).  The shade material's optional height/angle/pressure arguments are
not passed at the seed call sites; their defaults live in
material/shade.py.  Modelled from the spec: r_value_exterior /
r_value_interior / r_value_between take optional height, angle, t_mean and
pressure arguments, defaulted here to the module-wide defaults 1.0 m,
90 degrees and 101325 Pa (no embedded claim depends on these values). -/
def seedGapEntry (mats : List EnergyMaterial) (deltaT avgT : ℚ) (i : ℕ) :
    EnergyMaterial → Option (ℚ × EmissEntry)
  | .Glazing r _ _ => some (r, EmissEntry.none)
  | .SimpleGlazSys r => some (r, EmissEntry.none)
  | .Gas u _ => do
    let mNext ← mats.get? (i + 1)
    let eFront ← mNext.emissivity
    let mPrev ← prevMaterial mats i
    let eBack ← emissivityBackFallback mPrev
    some (1 / u deltaT eBack eFront avgT, EmissEntry.pair eBack eFront)
  | .Shade _ rExt rInt rBetween =>
    if i = 0 then do
      let mNext ← mats.get? (i + 1)
      let eBack ← mNext.emissivity
      some (rExt deltaT eBack 1 90 avgT 101325, EmissEntry.single eBack)
    else if i = mats.length - 1 then do
      let mPrev ← prevMaterial mats i
      let eFront ← mPrev.emissivityBack
      some (rInt deltaT eFront 1 90 avgT 101325, EmissEntry.single eFront)
    else do
      let mNext ← mats.get? (i + 1)
      let eBack ← mNext.emissivity
      let mPrev ← prevMaterial mats i
      let eFront ← mPrev.emissivityBack
      some (rBetween deltaT eBack eFront 1 90 avgT 101325,
        EmissEntry.pair eBack eFront)
  | .Opaque _ _ => Option.none

/-- The per-layer loop of _layered_r_value_initial over the remaining
layers, carrying the global index. -/
def seedEntriesAux (mats : List EnergyMaterial) (deltaT avgT : ℚ) :
    ℕ → List EnergyMaterial → Option (List ℚ × List EmissEntry)
  | _, [] => some ([], [])
  | i, m :: rest => do
    let (r, e) ← seedGapEntry mats deltaT avgT i m
    let (rs, es) ← seedEntriesAux mats deltaT avgT (i + 1) rest
    some (r :: rs, e :: es)

/-- WindowConstruction._layered_r_value_initial: outdoor film from out_h at
(avg_t_guess - delta_t_guess), per-layer entries at the per-gap drop
delta_t_guess / gap_count, and the simplified indoor film.  none exactly
when a neighbour lookup fails. -/
def layeredRValueInitial (mats : List EnergyMaterial) (gapCount : ℕ)
    (deltaTGuess avgTGuess windSpeed : ℚ) :
    Option (List ℚ × List EmissEntry) := do
  let deltaT := deltaTGuess / (gapCount : ℚ)
  let (rs, es) ← seedEntriesAux mats deltaT avgTGuess 0 mats
  some ((1 / outH (WindowConstruction.outsideEmissivity mats) windSpeed
      (avgTGuess - deltaTGuess)) :: rs ++
    [1 / inHSimple (WindowConstruction.insideEmissivity mats)], es)

/-- The per-layer loop of WindowConstruction._layered_r_value.  Indices into
the temperature, emissivity and initial-resistance vectors are total here
(getD); for the vectors actually produced by the seed step they are always
in range, and a mismatched emissivity entry (the 0 fallback) would be a
TypeError in the source. -/
def stepEntriesAux (air : AirModel) (ops : RealOps) (n : ℕ)
    (temperatures rValuesInit : List ℚ) (emiss : List EmissEntry)
    (height angle pressure : ℚ) : ℕ → List EnergyMaterial → List ℚ
  | _, [] => []
  | i, m :: rest =>
    let entry :=
      match m with
      | .Glazing _ _ _ => rValuesInit.getD (i + 1) 0
      | .SimpleGlazSys _ => rValuesInit.getD (i + 1) 0
      | .Gas _ uA =>
        let deltaT := |temperatures.getD (i + 1) 0 - temperatures.getD (i + 2) 0|
        let avgTemp := (temperatures.getD (i + 1) 0 +
          temperatures.getD (i + 2) 0) / 2 + 273.15
        match emiss.getD i EmissEntry.none with
        | EmissEntry.pair eb ef =>
          1 / uA deltaT eb ef height angle avgTemp pressure
        | _ => 0
      | .Shade _ rExt rInt rBetween =>
        let deltaT := |temperatures.getD (i + 1) 0 - temperatures.getD (i + 2) 0|
        let avgTemp := (temperatures.getD (i + 1) 0 +
          temperatures.getD (i + 2) 0) / 2 + 273.15
        if i = 0 then
          match emiss.getD i EmissEntry.none with
          | EmissEntry.single e => rExt deltaT e height angle avgTemp pressure
          | _ => 0
        else if i = n - 1 then
          match emiss.getD i EmissEntry.none with
          | EmissEntry.single e => rInt deltaT e height angle avgTemp pressure
          | _ => 0
        else
          match emiss.getD i EmissEntry.none with
          | EmissEntry.pair eb ef =>
            rBetween deltaT eb ef height angle avgTemp pressure
          | _ => 0
      | .Opaque _ _ => 0
    entry :: stepEntriesAux air ops n temperatures rValuesInit emiss
      height angle pressure (i + 1) rest

/-- WindowConstruction._layered_r_value: the outdoor film is carried over
unchanged from the input vector, each layer entry is recomputed from the
current temperature profile, and the indoor film is recomputed with the
detailed in_h at the innermost temperature difference. -/
def layeredRValueStep (air : AirModel) (ops : RealOps)
    (mats : List EnergyMaterial) (temperatures rValuesInit : List ℚ)
    (emiss : List EmissEntry) (height angle pressure : ℚ) : List ℚ :=
  let tLast := temperatures.getLastD 0
  let tPrev := (temperatures.dropLast).getLastD 0
  let deltaT := |tLast - tPrev|
  let avgTemp := (tLast + tPrev) / 2 + 273.15
  rValuesInit.getD 0 0 ::
    stepEntriesAux air ops mats.length temperatures rValuesInit emiss
      height angle pressure 0 mats ++
    [1 / inH air ops (WindowConstruction.insideEmissivity mats) avgTemp
      deltaT height angle pressure]

/-- One refinement step of the iterative solve: build the temperature
profile from the current resistances, then recompute the layered
resistances from it. -/
def windowSolveStep (air : AirModel) (ops : RealOps)
    (mats : List EnergyMaterial) (emiss : List EmissEntry)
    (height angle pressure outsideTemperature insideTemperature : ℚ)
    (rVals : List ℚ) : List ℚ :=
  layeredRValueStep air ops mats
    (temperatureProfileFromRValues rVals outsideTemperature insideTemperature)
    rVals emiss height angle pressure

/-- The while loop shared by WindowConstruction._solve_r_values and
WindowConstruction.temperature_profile: starting from r_last = 0, iterate
step while |sum(r_vals) - r_last| > 0.001, threading r_last := sum of the
current vector.  The loop has no iteration cap, so its semantics is a
big-step relation: SolveLoop step rLast rVals result holds when the loop
started in state (rLast, rVals) terminates with result. -/
inductive SolveLoop (step : List ℚ → List ℚ) : ℚ → List ℚ → List ℚ → Prop
  | done (rLast : ℚ) (rVals : List ℚ) :
      ¬ (0.001 < |rVals.sum - rLast|) → SolveLoop step rLast rVals rVals
  | iter (rLast : ℚ) (rVals result : List ℚ) :
      0.001 < |rVals.sum - rLast| →
      SolveLoop step rVals.sum (step rVals) result →
      SolveLoop step rLast rVals result

/-- Fuelled executable mirror of the solve loop, used to certify concrete
terminating runs. -/
def solveLoopFuel (step : List ℚ → List ℚ) :
    ℕ → ℚ → List ℚ → Option (List ℚ)
  | 0, _, _ => Option.none
  | n + 1, rLast, rVals =>
    if 0.001 < |rVals.sum - rLast| then
      solveLoopFuel step n rVals.sum (step rVals)
    else some rVals

/-- WindowConstruction.r_factor: the closed form for a gap-free
construction, otherwise the iterative solve seeded by
_layered_r_value_initial at its default arguments delta_t_guess = 15,
avg_t_guess = 273.15, wind_speed = 6.7, iterated with the default
temperatures -18/21 and default height 1, angle 90, pressure 101325 of
_temperature_profile_from_r_values and _layered_r_value. -/
def WindowRFactor (air : AirModel) (ops : RealOps) (c : WindowConstruction)
    (value : ℚ) : Prop :=
  if gapCount c.materials = 0 then
    value = (c.materials.headD matDefault).rValue + 1 / outHSimple +
      1 / inHSimple (WindowConstruction.insideEmissivity c.materials)
  else
    ∃ seed emiss rVals,
      layeredRValueInitial c.materials (gapCount c.materials) 15 273.15 6.7 =
        some (seed, emiss) ∧
      SolveLoop (windowSolveStep air ops c.materials emiss 1 90 101325 (-18) 21)
        0 seed rVals ∧
      value = rVals.sum

/-- WindowConstruction.r_value: like r_factor but summing only the interior
entries r_vals[1:-1] of the converged vector. -/
def WindowRValue (air : AirModel) (ops : RealOps) (c : WindowConstruction)
    (value : ℚ) : Prop :=
  if gapCount c.materials = 0 then
    value = (c.materials.headD matDefault).rValue
  else
    ∃ seed emiss rVals,
      layeredRValueInitial c.materials (gapCount c.materials) 15 273.15 6.7 =
        some (seed, emiss) ∧
      SolveLoop (windowSolveStep air ops c.materials emiss 1 90 101325 (-18) 21)
        0 seed rVals ∧
      value = ((rVals.drop 1).dropLast).sum

/-- The gap-free branch of WindowConstruction.temperature_profile: three
resistances (detailed outdoor film, the single layer, simplified indoor
film), one refinement of the indoor film at half the interior drop, then
the temperature profile. -/
def windowNoGapProfile (air : AirModel) (ops : RealOps)
    (c : WindowConstruction)
    (outsideTemperature insideTemperature windSpeed height angle pressure : ℚ) :
    List ℚ × List ℚ :=
  let inRInit := 1 / inHSimple (WindowConstruction.insideEmissivity c.materials)
  let rValues := [1 / outH (WindowConstruction.outsideEmissivity c.materials)
      windSpeed (outsideTemperature + 273.15),
    (c.materials.headD matDefault).rValue, inRInit]
  let inDeltaT := inRInit / rValues.sum *
    (outsideTemperature - insideTemperature)
  let rValues2 := rValues.dropLast ++
    [1 / inH air ops (WindowConstruction.insideEmissivity c.materials)
      (insideTemperature - inDeltaT / 2 + 273.15) inDeltaT height angle pressure]
  (temperatureProfileFromRValues rValues2 outsideTemperature insideTemperature,
    rValues2)

/-- WindowConstruction.temperature_profile after the angle adjustment: the
gap-free closed form, or the iterative solve seeded from the boundary
temperatures (guess = |T_in - T_out| / 2 raised to at least 1, mean guess
(T_in + T_out) / 2 + 273.15). -/
def WindowTemperatureProfileAt (air : AirModel) (ops : RealOps)
    (c : WindowConstruction)
    (outsideTemperature insideTemperature windSpeed height angle pressure : ℚ)
    (result : List ℚ × List ℚ) : Prop :=
  if gapCount c.materials = 0 then
    result = windowNoGapProfile air ops c outsideTemperature insideTemperature
      windSpeed height angle pressure
  else
    let guess0 := |insideTemperature - outsideTemperature| / 2
    let guess := if guess0 < 1 then 1 else guess0
    let avgGuess := (insideTemperature + outsideTemperature) / 2 + 273.15
    ∃ seed emiss rVals,
      layeredRValueInitial c.materials (gapCount c.materials) guess avgGuess
        windSpeed = some (seed, emiss) ∧
      SolveLoop (windowSolveStep air ops c.materials emiss height angle pressure
        outsideTemperature insideTemperature) 0 seed rVals ∧
      result = (temperatureProfileFromRValues rVals outsideTemperature
        insideTemperature, rVals)

/-- WindowConstruction.temperature_profile: the angle is flipped to
abs(180 - angle) when angle != 90 and the outside is warmer than the
inside, before anything else is computed. -/
def WindowTemperatureProfile (air : AirModel) (ops : RealOps)
    (c : WindowConstruction)
    (outsideTemperature insideTemperature windSpeed height angle pressure : ℚ)
    (result : List ℚ × List ℚ) : Prop :=
  WindowTemperatureProfileAt air ops c outsideTemperature insideTemperature
    windSpeed height
    (if angle ≠ 90 ∧ outsideTemperature > insideTemperature then |180 - angle|
     else angle)
    pressure result

/-- OpaqueConstruction.temperature_profile after the angle adjustment:
detailed outdoor film, intrinsic layer resistances, simplified indoor film
refined once with the detailed in_h at half the interior drop, then the
temperature profile (a single pass, no iteration). -/
def OpaqueConstruction.temperatureProfileAt (air : AirModel) (ops : RealOps)
    (c : OpaqueConstruction)
    (outsideTemperature insideTemperature windSpeed height angle pressure : ℚ) :
    List ℚ × List ℚ :=
  let inRInit := 1 / inHSimple (OpaqueConstruction.insideEmissivity c.materials)
  let rValues := 1 / outH (OpaqueConstruction.outsideEmissivity c.materials)
      windSpeed (outsideTemperature + 273.15) ::
    (c.materials.map EnergyMaterial.rValue ++ [inRInit])
  let inDeltaT := inRInit / rValues.sum *
    (outsideTemperature - insideTemperature)
  let rValues2 := rValues.dropLast ++
    [1 / inH air ops (OpaqueConstruction.insideEmissivity c.materials)
      (insideTemperature - inDeltaT / 2 + 273.15) inDeltaT height angle pressure]
  (temperatureProfileFromRValues rValues2 outsideTemperature insideTemperature,
    rValues2)

/-- OpaqueConstruction.temperature_profile with the source's angle
adjustment on entry. -/
def OpaqueConstruction.temperatureProfile (air : AirModel) (ops : RealOps)
    (c : OpaqueConstruction)
    (outsideTemperature insideTemperature windSpeed height angle pressure : ℚ) :
    List ℚ × List ℚ :=
  OpaqueConstruction.temperatureProfileAt air ops c outsideTemperature
    insideTemperature windSpeed height
    (if angle ≠ 90 ∧ outsideTemperature > insideTemperature then |180 - angle|
     else angle)
    pressure

/-- Adjacency facts holding between every two consecutive layers of a
validated window materials list: a gas or shade layer is preceded by a
glazing layer, two glazing layers are never adjacent, and a gas or shade
layer is followed by a glazing layer. -/
def PairOK (a b : EnergyMaterial) : Prop :=
  (b.isGas = true → a.isGlazing = true) ∧
    (b.isGlazing = true → a.isGlazing = false) ∧
    (b.isShade = true → a.isGlazing = true) ∧
    (a.isGas = true → b.isGlazing = true) ∧
    (a.isShade = true → b.isGlazing = true)

/-- A unit air-property model used to instantiate concrete runs of the
solver: every property function is constant 1. -/
def airU : AirModel := ⟨fun _ _ => 1, fun _ => 1, fun _ => 1, fun _ => 1⟩

/-- Unit transcendental operations for concrete runs: every operation is
constant 1 (nothing in the correlations constrains these stand-ins, since
the real math functions live outside the embedded module). -/
def opsU : RealOps := ⟨fun _ => 1, fun _ => 1, fun _ => 1, fun _ => 1, fun _ => 1⟩

/-- A glazing pane of resistance 1 with zero emissivities on both faces
(the zero emissivities silence the radiative film terms so concrete runs
stay in small rationals). -/
def glz0 : EnergyMaterial := EnergyMaterial.Glazing 1 0 0

/-- A gas gap whose conductance from the seed call depends on the mean
temperature guess (1 below 274 K, 1/2 above) and whose angle-resolved
conductance stabilises at whatever side of delta_t = 13 it is evaluated
on. -/
def gasC1 : EnergyMaterial :=
  EnergyMaterial.Gas (fun _ _ _ tK => if tK < 274 then 1 else 1 / 2)
    (fun dt _ _ _ _ _ _ => if dt < 13 then 1 else 1 / 2)

/-- A gas gap whose angle-resolved conductance flips sides of delta_t = 13
each iteration, producing a period-two orbit of the solve loop. -/
def gasNT : EnergyMaterial :=
  EnergyMaterial.Gas (fun _ _ _ _ => 1)
    (fun dt _ _ _ _ _ _ => if dt < 13 then 1 / 2 else 1)

/-- A gas conductance that simply reports the delta_t it was called with,
used to observe the per-gap temperature-drop guess of the seed build. -/
def recordDeltaT : ℚ → ℚ → ℚ → ℚ → ℚ := fun dt _ _ _ => dt

/-- A recording gas gap: u_value returns the delta_t argument and
u_value_at_angle is constant 1. -/
def gasRec : EnergyMaterial :=
  EnergyMaterial.Gas recordDeltaT (fun _ _ _ _ _ _ _ => 1)

/-- A plain shade layer (constant resistance capability functions). -/
def shadeM : EnergyMaterial :=
  EnergyMaterial.Shade (9 / 10) (fun _ _ _ _ _ _ => 1) (fun _ _ _ _ _ _ => 1)
    (fun _ _ _ _ _ _ _ => 1)

/-- A plain gas layer used to exercise the validator. -/
def gasM : EnergyMaterial :=
  EnergyMaterial.Gas (fun _ _ _ _ => 1) (fun _ _ _ _ _ _ _ => 1)

def matsC1 : List EnergyMaterial := [glz0, gasC1, glz0]

def cC1 : WindowConstruction := ⟨matsC1⟩

def matsNT : List EnergyMaterial := [glz0, gasNT, glz0]

def cNT : WindowConstruction := ⟨matsNT⟩

def matsC2 : List EnergyMaterial := [glz0, gasRec, glz0, gasRec, glz0]

def cC2 : WindowConstruction := ⟨matsC2⟩

def emissC1 : List EmissEntry :=
  [EmissEntry.none, EmissEntry.pair 0 0, EmissEntry.none]

/-- The refinement step of both solve entry points for cC1 and cNT: default
temperatures -18/21, height 1, angle 90, pressure 101325. -/
def stepC1 : List ℚ → List ℚ :=
  windowSolveStep airU opsU matsC1 emissC1 1 90 101325 (-18) 21

def stepNT : List ℚ → List ℚ :=
  windowSolveStep airU opsU matsNT emissC1 1 90 101325 (-18) 21

/-- The r_factor seed of cC1 and cNT (delta guess 15, mean guess 273.15). -/
def seedNT : List ℚ := [5 / 154, 1, 1, 1, 5 / 18]

/-- The temperature_profile seed of cC1 at default boundary conditions
(delta guess 19.5, mean guess 274.65, so the gas gap seeds at 2). -/
def seedTP : List ℚ := [5 / 154, 1, 2, 1, 5 / 18]

/-- First orbit state of the cNT loop (gas gap at 2, refined indoor film). -/
def sNT1 : List ℚ := [5 / 154, 1, 2, 1, 25 / 14]

/-- Second orbit state of the cNT loop (gas gap back at 1). -/
def sNT2 : List ℚ := [5 / 154, 1, 1, 1, 25 / 14]

/-- The states the cNT solve loop can ever be in: the seed, then the
period-two orbit sNT1 / sNT2 with the matching previous-sum registers. -/
def ReachNT (rLast : ℚ) (rVals : List ℚ) : Prop :=
  (rLast = 0 ∧ rVals = seedNT) ∨ (rLast = seedNT.sum ∧ rVals = sNT1) ∨
    (rLast = sNT1.sum ∧ rVals = sNT2) ∨ (rLast = sNT2.sum ∧ rVals = sNT1)

/-- A one-layer opaque construction used to instantiate concrete profile
evaluations. -/
def co0 : OpaqueConstruction := ⟨[EnergyMaterial.Opaque 1 (1 / 2)]⟩

/-- The seed resistance vector of cC2 at the guesses used by
temperature_profile under default boundary conditions: each gas entry is
1 / u(19.5 / 2) = 4 / 39 because the drop guess 19.5 is divided by the gap
count 2. -/
def seedC2 : List ℚ := [5 / 154, 1, 4 / 39, 1, 4 / 39, 1, 5 / 18]

def emissC2 : List EmissEntry :=
  [EmissEntry.none, EmissEntry.pair 0 0, EmissEntry.none, EmissEntry.pair 0 0,
    EmissEntry.none]

theorem temperatureAccum_length (d R : ℚ) :
    ∀ (rs : List ℚ) (t : ℚ), (temperatureAccum d R t rs).length = rs.length + 1 := by
  intro rs
  induction rs with
  | nil => intro t; rfl
  | cons r rs ih => intro t; simp [temperatureAccum, ih]

theorem temperatureAccum_head (d R t : ℚ) (rs : List ℚ) :
    (temperatureAccum d R t rs).head? = some t := by
  cases rs <;> rfl

theorem temperatureAccum_getD_zero (d R t : ℚ) (rs : List ℚ) :
    (temperatureAccum d R t rs).getD 0 0 = t := by
  cases rs <;> rfl

theorem temperatureAccum_step (d R : ℚ) :
    ∀ (rs : List ℚ) (t : ℚ) (i : ℕ), i < rs.length →
      (temperatureAccum d R t rs).getD (i + 1) 0 =
        (temperatureAccum d R t rs).getD i 0 + d * (rs.getD i 0 / R) := by
  intro rs
  induction rs with
  | nil => intro t i h; exact absurd h (Nat.not_lt_zero i)
  | cons r rs ih =>
    intro t i h
    cases i with
    | zero =>
      show (temperatureAccum d R (t + d * (r / R)) rs).getD 0 0 = t + d * (r / R)
      exact temperatureAccum_getD_zero d R _ rs
    | succ j =>
      have hj : j < rs.length := Nat.lt_of_succ_lt_succ h
      show (temperatureAccum d R (t + d * (r / R)) rs).getD (j + 1) 0 =
        (temperatureAccum d R (t + d * (r / R)) rs).getD j 0 + d * (rs.getD j 0 / R)
      exact ih _ j hj

theorem temperatureAccum_eq_cons (d R t : ℚ) (rs : List ℚ) :
    ∃ l, temperatureAccum d R t rs = t :: l := by
  cases rs with
  | nil => exact ⟨[], rfl⟩
  | cons r rs => exact ⟨_, rfl⟩

theorem temperatureAccum_getLast (d R : ℚ) :
    ∀ (rs : List ℚ) (t : ℚ),
      (temperatureAccum d R t rs).getLast? = some (t + d * (rs.sum / R)) := by
  intro rs
  induction rs with
  | nil =>
    intro t
    show some t = some (t + d * (0 / R))
    rw [zero_div, mul_zero, add_zero]
  | cons r rs ih =>
    intro t
    show (t :: temperatureAccum d R (t + d * (r / R)) rs).getLast? =
      some (t + d * ((r + rs.sum) / R))
    obtain ⟨l, hl⟩ := temperatureAccum_eq_cons d R (t + d * (r / R)) rs
    rw [hl, List.getLast?_cons_cons, ← hl, ih]
    congr 1
    rw [add_div, mul_add]
    ring

/-- C3: for every resistance list r with nonzero sum and boundary
temperatures T_out and T_in, the temperature-profile builder returns a list
of length k + 1 whose first entry is T_out, whose entry i + 1 equals entry
i plus (T_in - T_out) * (r[i] / sum r), and whose last entry equals T_in
exactly. -/
theorem c3_temperature_profile_builder (r : List ℚ) (tOut tIn : ℚ)
    (hsum : r.sum ≠ 0) :
    (temperatureProfileFromRValues r tOut tIn).length = r.length + 1 ∧
    (temperatureProfileFromRValues r tOut tIn).head? = some tOut ∧
    (∀ i, i < r.length →
      (temperatureProfileFromRValues r tOut tIn).getD (i + 1) 0 =
        (temperatureProfileFromRValues r tOut tIn).getD i 0 +
          (tIn - tOut) * (r.getD i 0 / r.sum)) ∧
    (temperatureProfileFromRValues r tOut tIn).getLast? = some tIn := by
  refine ⟨temperatureAccum_length _ _ r tOut, temperatureAccum_head _ _ tOut r,
    fun i hi => temperatureAccum_step _ _ r tOut i hi, ?_⟩
  rw [temperatureProfileFromRValues, temperatureAccum_getLast, div_self hsum,
    mul_one, add_sub_cancel]

/-- Closed witness for C3 at r = [1, 2], T_out = 0, T_in = 3. -/
theorem c3_temperature_profile_builder_witness :
    (temperatureProfileFromRValues [1, 2] 0 3).getLast? = some 3 :=
  (c3_temperature_profile_builder [1, 2] 0 3 (by norm_num)).2.2.2

/-- C4: for a single-layer opaque construction with material resistance R0
and inside-face emissivity e, r_factor equals
R0 + 1/23 + 1/(3.6 + 4.4 * e / 0.84) exactly, with no iteration (the
accessor is a closed form). -/
theorem c4_single_layer_r_factor (R0 e : ℚ) :
    OpaqueConstruction.rFactor ⟨[EnergyMaterial.Opaque R0 e]⟩ =
      R0 + 1 / 23 + 1 / (3.6 + 4.4 * e / 0.84) := by
  simp [OpaqueConstruction.rFactor, OpaqueConstruction.rValue,
    OpaqueConstruction.insideEmissivity, inHSimple, outHSimple,
    EnergyMaterial.rValue, EnergyMaterial.thermalAbsorptance]

/-- C7: at angle = 90 and any Rayleigh number below the critical value, the
Nusselt number computed by the 15..90 degree branch of in_h equals the
value given by the 90..179 degree branch formula
0.56 * (Ra * sin 90) ** (1/4): the correlation is continuous at the
seam. -/
theorem c7_nusselt_seam (ops : RealOps) (rayleighH : ℚ)
    (h : rayleighH < rayleighCritical ops 90) :
    nusseltNumber ops rayleighH 90 = nusseltObtuseFormula ops rayleighH 90 := by
  unfold nusseltNumber nusseltObtuseFormula
  rw [if_neg (by norm_num), if_pos (by norm_num : (90 : ℚ) ≤ 90)]
  exact if_pos h

/-- Closed witness for C7 with the unit operations and Ra = 0. -/
theorem c7_nusselt_seam_witness :
    nusseltNumber opsU 0 90 = nusseltObtuseFormula opsU 0 90 :=
  c7_nusselt_seam opsU 0 (by norm_num [rayleighCritical, opsU])

theorem solveLoop_unfold (step : List ℚ → List ℚ) (rLast : ℚ)
    (rVals result : List ℚ) :
    SolveLoop step rLast rVals result ↔
      (¬ (0.001 < |rVals.sum - rLast|) ∧ result = rVals) ∨
        (0.001 < |rVals.sum - rLast| ∧
          SolveLoop step rVals.sum (step rVals) result) := by
  constructor
  · intro h
    cases h with
    | done _ _ hstop => exact Or.inl ⟨hstop, rfl⟩
    | iter _ _ _ hgo hrec => exact Or.inr ⟨hgo, hrec⟩
  · intro h
    rcases h with ⟨hstop, rfl⟩ | ⟨hgo, hrec⟩
    · exact SolveLoop.done _ _ hstop
    · exact SolveLoop.iter _ _ _ hgo hrec

theorem solveLoop_post (step : List ℚ → List ℚ) (rLast : ℚ)
    (r0 result : List ℚ) (h : SolveLoop step rLast r0 result) :
    (result = r0 ∧ |r0.sum - rLast| ≤ 0.001) ∨
      ∃ prev, result = step prev ∧ |result.sum - prev.sum| ≤ 0.001 := by
  induction h with
  | done rL rV hstop => exact Or.inl ⟨rfl, le_of_not_lt hstop⟩
  | iter rL rV res hgo hrec ih =>
    rcases ih with ⟨heq, hle⟩ | ⟨prev, heq, hle⟩
    · exact Or.inr ⟨rV, heq, by rw [heq]; exact hle⟩
    · exact Or.inr ⟨prev, heq, hle⟩

theorem solveLoopFuel_sound (step : List ℚ → List ℚ) :
    ∀ (n : ℕ) (rLast : ℚ) (rVals result : List ℚ),
      solveLoopFuel step n rLast rVals = some result →
      SolveLoop step rLast rVals result := by
  intro n
  induction n with
  | zero =>
    intro rLast rVals result h
    exact absurd h (by simp [solveLoopFuel])
  | succ n ih =>
    intro rLast rVals result h
    rw [solveLoopFuel] at h
    by_cases hc : 0.001 < |rVals.sum - rLast|
    · rw [if_pos hc] at h
      exact SolveLoop.iter _ _ _ hc (ih _ _ _ h)
    · rw [if_neg hc] at h
      cases h
      exact SolveLoop.done _ _ hc

theorem stepNT_seedNT : stepNT seedNT = sNT1 := by
  norm_num [stepNT, windowSolveStep, layeredRValueStep, stepEntriesAux,
    temperatureProfileFromRValues, temperatureAccum, inH, nusseltNumber,
    rayleighCritical, matsNT, glz0, gasNT, emissC1, seedNT, sNT1, airU, opsU,
    WindowConstruction.insideEmissivity, WindowConstruction.outsideEmissivity,
    emissivityBackFallback, EnergyMaterial.emissivityBack,
    EnergyMaterial.emissivity, EnergyMaterial.isSimpleGlazSys, matDefault,
    List.getLastD, List.getD, abs_of_nonneg]

theorem stepNT_sNT1 : stepNT sNT1 = sNT2 := by
  norm_num [stepNT, windowSolveStep, layeredRValueStep, stepEntriesAux,
    temperatureProfileFromRValues, temperatureAccum, inH, nusseltNumber,
    rayleighCritical, matsNT, glz0, gasNT, emissC1, sNT1, sNT2, airU, opsU,
    WindowConstruction.insideEmissivity, WindowConstruction.outsideEmissivity,
    emissivityBackFallback, EnergyMaterial.emissivityBack,
    EnergyMaterial.emissivity, EnergyMaterial.isSimpleGlazSys, matDefault,
    List.getLastD, List.getD, abs_of_nonneg]

theorem stepNT_sNT2 : stepNT sNT2 = sNT1 := by
  norm_num [stepNT, windowSolveStep, layeredRValueStep, stepEntriesAux,
    temperatureProfileFromRValues, temperatureAccum, inH, nusseltNumber,
    rayleighCritical, matsNT, glz0, gasNT, emissC1, sNT1, sNT2, airU, opsU,
    WindowConstruction.insideEmissivity, WindowConstruction.outsideEmissivity,
    emissivityBackFallback, EnergyMaterial.emissivityBack,
    EnergyMaterial.emissivity, EnergyMaterial.isSimpleGlazSys, matDefault,
    List.getLastD, List.getD, abs_of_nonneg]

theorem stepC1_seedNT : stepC1 seedNT = sNT2 := by
  norm_num [stepC1, windowSolveStep, layeredRValueStep, stepEntriesAux,
    temperatureProfileFromRValues, temperatureAccum, inH, nusseltNumber,
    rayleighCritical, matsC1, glz0, gasC1, emissC1, seedNT, sNT2, airU, opsU,
    WindowConstruction.insideEmissivity, WindowConstruction.outsideEmissivity,
    emissivityBackFallback, EnergyMaterial.emissivityBack,
    EnergyMaterial.emissivity, EnergyMaterial.isSimpleGlazSys, matDefault,
    List.getLastD, List.getD, abs_of_nonneg]

theorem stepC1_sNT2 : stepC1 sNT2 = sNT2 := by
  norm_num [stepC1, windowSolveStep, layeredRValueStep, stepEntriesAux,
    temperatureProfileFromRValues, temperatureAccum, inH, nusseltNumber,
    rayleighCritical, matsC1, glz0, gasC1, emissC1, sNT2, airU, opsU,
    WindowConstruction.insideEmissivity, WindowConstruction.outsideEmissivity,
    emissivityBackFallback, EnergyMaterial.emissivityBack,
    EnergyMaterial.emissivity, EnergyMaterial.isSimpleGlazSys, matDefault,
    List.getLastD, List.getD, abs_of_nonneg]

theorem stepC1_seedTP : stepC1 seedTP = sNT1 := by
  norm_num [stepC1, windowSolveStep, layeredRValueStep, stepEntriesAux,
    temperatureProfileFromRValues, temperatureAccum, inH, nusseltNumber,
    rayleighCritical, matsC1, glz0, gasC1, emissC1, seedTP, sNT1, airU, opsU,
    WindowConstruction.insideEmissivity, WindowConstruction.outsideEmissivity,
    emissivityBackFallback, EnergyMaterial.emissivityBack,
    EnergyMaterial.emissivity, EnergyMaterial.isSimpleGlazSys, matDefault,
    List.getLastD, List.getD, abs_of_nonneg]

theorem stepC1_sNT1 : stepC1 sNT1 = sNT1 := by
  norm_num [stepC1, windowSolveStep, layeredRValueStep, stepEntriesAux,
    temperatureProfileFromRValues, temperatureAccum, inH, nusseltNumber,
    rayleighCritical, matsC1, glz0, gasC1, emissC1, sNT1, airU, opsU,
    WindowConstruction.insideEmissivity, WindowConstruction.outsideEmissivity,
    emissivityBackFallback, EnergyMaterial.emissivityBack,
    EnergyMaterial.emissivity, EnergyMaterial.isSimpleGlazSys, matDefault,
    List.getLastD, List.getD, abs_of_nonneg]

theorem solveLoopRF : SolveLoop stepC1 0 seedNT sNT2 := by
  refine SolveLoop.iter _ _ _ (by norm_num [seedNT, abs_of_nonneg]) ?_
  rw [stepC1_seedNT]
  refine SolveLoop.iter _ _ _ (by norm_num [seedNT, sNT2, abs_of_nonneg]) ?_
  rw [stepC1_sNT2]
  exact SolveLoop.done _ _ (by norm_num [sNT2, abs_of_nonneg])

theorem solveLoopTP : SolveLoop stepC1 0 seedTP sNT1 := by
  refine SolveLoop.iter _ _ _ (by norm_num [seedTP, abs_of_nonneg]) ?_
  rw [stepC1_seedTP]
  refine SolveLoop.iter _ _ _ (by norm_num [seedTP, sNT1, abs_of_nonneg]) ?_
  rw [stepC1_sNT1]
  exact SolveLoop.done _ _ (by norm_num [sNT1, abs_of_nonneg])

theorem gapCount_matsC1 : gapCount matsC1 = 1 := by
  norm_num [gapCount, gapCountAux, matsC1, glz0, gasC1]

theorem gapCount_matsNT : gapCount matsNT = 1 := by
  norm_num [gapCount, gapCountAux, matsNT, glz0, gasNT]

theorem lriC1 : layeredRValueInitial matsC1 1 15 273.15 6.7 =
    some (seedNT, emissC1) := by
  norm_num [layeredRValueInitial, seedEntriesAux, seedGapEntry, prevMaterial,
    outH, inHSimple, WindowConstruction.insideEmissivity,
    WindowConstruction.outsideEmissivity, emissivityBackFallback,
    EnergyMaterial.emissivityBack, EnergyMaterial.emissivity,
    EnergyMaterial.isSimpleGlazSys, matDefault, matsC1, glz0, gasC1, seedNT,
    emissC1, List.getLastD, Option.bind, abs_of_nonneg]

theorem lriC1tp : layeredRValueInitial matsC1 1 (39 / 2) ((21 + -18) / 2 + 273.15)
    6.7 = some (seedTP, emissC1) := by
  norm_num [layeredRValueInitial, seedEntriesAux, seedGapEntry, prevMaterial,
    outH, inHSimple, WindowConstruction.insideEmissivity,
    WindowConstruction.outsideEmissivity, emissivityBackFallback,
    EnergyMaterial.emissivityBack, EnergyMaterial.emissivity,
    EnergyMaterial.isSimpleGlazSys, matDefault, matsC1, glz0, gasC1, seedTP,
    emissC1, List.getLastD, Option.bind, abs_of_nonneg]

theorem lriNT : layeredRValueInitial matsNT 1 15 273.15 6.7 =
    some (seedNT, emissC1) := by
  norm_num [layeredRValueInitial, seedEntriesAux, seedGapEntry, prevMaterial,
    outH, inHSimple, WindowConstruction.insideEmissivity,
    WindowConstruction.outsideEmissivity, emissivityBackFallback,
    EnergyMaterial.emissivityBack, EnergyMaterial.emissivity,
    EnergyMaterial.isSimpleGlazSys, matDefault, matsNT, glz0, gasNT, seedNT,
    emissC1, List.getLastD, Option.bind, abs_of_nonneg]

theorem solveLoopNT_reach (rLast : ℚ) (rVals result : List ℚ)
    (h : SolveLoop stepNT rLast rVals result) :
    ReachNT rLast rVals → False := by
  induction h with
  | done rL rV hstop =>
    intro hreach
    rcases hreach with ⟨h1, h2⟩ | ⟨h1, h2⟩ | ⟨h1, h2⟩ | ⟨h1, h2⟩ <;>
      subst h1 <;> subst h2 <;>
      exact hstop (by norm_num [seedNT, sNT1, sNT2, abs_of_nonneg])
  | iter rL rV res hgo hrec ih =>
    intro hreach
    apply ih
    rcases hreach with ⟨h1, h2⟩ | ⟨h1, h2⟩ | ⟨h1, h2⟩ | ⟨h1, h2⟩ <;> subst h2
    · rw [stepNT_seedNT]
      exact Or.inr (Or.inl ⟨rfl, rfl⟩)
    · rw [stepNT_sNT1]
      exact Or.inr (Or.inr (Or.inl ⟨rfl, rfl⟩))
    · rw [stepNT_sNT2]
      exact Or.inr (Or.inr (Or.inr ⟨rfl, rfl⟩))
    · rw [stepNT_sNT1]
      exact Or.inr (Or.inr (Or.inl ⟨rfl, rfl⟩))

/-- C5: in both temperature_profile methods, when the outside temperature
exceeds the inside temperature and the angle is not 90, the angle is
replaced by abs(180 - angle) before any film or resistance computation;
otherwise the angle is used unchanged. -/
theorem c5_angle_flip (air : AirModel) (ops : RealOps)
    (cw : WindowConstruction) (co : OpaqueConstruction)
    (tOut tIn ws height angle pressure : ℚ) :
    (tOut > tIn → angle ≠ 90 →
      (∀ res, WindowTemperatureProfile air ops cw tOut tIn ws height angle
          pressure res ↔
        WindowTemperatureProfileAt air ops cw tOut tIn ws height
          (|180 - angle|) pressure res) ∧
      OpaqueConstruction.temperatureProfile air ops co tOut tIn ws height
          angle pressure =
        OpaqueConstruction.temperatureProfileAt air ops co tOut tIn ws height
          (|180 - angle|) pressure) ∧
    ((tOut ≤ tIn ∨ angle = 90) →
      (∀ res, WindowTemperatureProfile air ops cw tOut tIn ws height angle
          pressure res ↔
        WindowTemperatureProfileAt air ops cw tOut tIn ws height angle
          pressure res) ∧
      OpaqueConstruction.temperatureProfile air ops co tOut tIn ws height
          angle pressure =
        OpaqueConstruction.temperatureProfileAt air ops co tOut tIn ws height
          angle pressure) := by
  constructor
  · intro h1 h2
    have hc : angle ≠ 90 ∧ tOut > tIn := ⟨h2, h1⟩
    constructor
    · intro res
      unfold WindowTemperatureProfile
      rw [if_pos hc]
    · unfold OpaqueConstruction.temperatureProfile
      rw [if_pos hc]
  · intro h
    have hc : ¬ (angle ≠ 90 ∧ tOut > tIn) := by
      rcases h with h | h
      · exact fun hand => absurd hand.2 (not_lt.mpr h)
      · exact fun hand => hand.1 h
    constructor
    · intro res
      unfold WindowTemperatureProfile
      rw [if_neg hc]
    · unfold OpaqueConstruction.temperatureProfile
      rw [if_neg hc]

/-- Closed witness for C5: a reversed-gradient evaluation at angle 30
equals the direct evaluation at abs(180 - 30). -/
theorem c5_angle_flip_witness :
    OpaqueConstruction.temperatureProfile airU opsU co0 5 0 6.7 1 30 101325 =
      OpaqueConstruction.temperatureProfileAt airU opsU co0 5 0 6.7 1
        (|180 - 30|) 101325 :=
  ((c5_angle_flip airU opsU cC1 co0 5 0 6.7 1 30 101325).1 (by norm_num)
    (by norm_num)).2

/-- C6: the iterative resistance solve runs its refinement step exactly
while the current and previous resistance sums differ by more than 0.001
m2K/W (first conjunct: the loop unfolding), so on return the last two
resistance sums differ by at most 0.001 (second conjunct); the loop has no
maximum-iteration guard and termination is not guaranteed for arbitrary
material conductance functions: for the concrete construction cNT no value
at all satisfies the r_factor relation, its solve loop cycling between two
resistance vectors forever (third conjunct). -/
theorem c6_solve_loop :
    (∀ (step : List ℚ → List ℚ) (rLast : ℚ) (rVals result : List ℚ),
      SolveLoop step rLast rVals result ↔
        (¬ (0.001 < |rVals.sum - rLast|) ∧ result = rVals) ∨
          (0.001 < |rVals.sum - rLast| ∧
            SolveLoop step rVals.sum (step rVals) result)) ∧
    (∀ (step : List ℚ → List ℚ) (rLast : ℚ) (r0 result : List ℚ),
      SolveLoop step rLast r0 result →
        (result = r0 ∧ |r0.sum - rLast| ≤ 0.001) ∨
          ∃ prev, result = step prev ∧ |result.sum - prev.sum| ≤ 0.001) ∧
    (∀ value, ¬ WindowRFactor airU opsU cNT value) := by
  refine ⟨solveLoop_unfold, solveLoop_post, ?_⟩
  intro value h
  rw [WindowRFactor, show cNT.materials = matsNT from rfl, gapCount_matsNT,
    if_neg (by norm_num)] at h
  obtain ⟨seed, emiss, rVals, hlri, hloop, _⟩ := h
  rw [lriNT] at hlri
  have hseed : seedNT = seed ∧ emissC1 = emiss := by
    have := Option.some.inj hlri
    exact ⟨congrArg Prod.fst this, congrArg Prod.snd this⟩
  obtain ⟨h1, h2⟩ := hseed
  subst h1
  subst h2
  exact solveLoopNT_reach 0 seedNT rVals hloop (Or.inl ⟨rfl, rfl⟩)

/-- Closed witness for C6 at a concrete terminating run of the solve
loop. -/
theorem c6_solve_loop_witness :
    (sNT2 = seedNT ∧ |seedNT.sum - 0| ≤ 0.001) ∨
      ∃ prev, sNT2 = stepC1 prev ∧ |sNT2.sum - prev.sum| ≤ 0.001 :=
  c6_solve_loop.2.1 stepC1 0 seedNT sNT2 solveLoopRF

theorem rfRunC1 : WindowRFactor airU opsU cC1 (53 / 11) := by
  rw [WindowRFactor, show cC1.materials = matsC1 from rfl, gapCount_matsC1,
    if_neg (by norm_num)]
  exact ⟨seedNT, emissC1, sNT2, lriC1, solveLoopRF, by norm_num [sNT2]⟩

theorem tpRunC1 : WindowTemperatureProfile airU opsU cC1 (-18) 21 6.7 1 90
    101325 (temperatureProfileFromRValues sNT1 (-18) 21, sNT1) := by
  rw [WindowTemperatureProfile, if_neg (by norm_num)]
  rw [WindowTemperatureProfileAt, show cC1.materials = matsC1 from rfl,
    gapCount_matsC1, if_neg (by norm_num)]
  refine ⟨seedTP, emissC1, sNT1, ?_, solveLoopTP, rfl⟩
  have hguess : (if |(21 : ℚ) - -18| / 2 < 1 then (1 : ℚ)
      else |(21 : ℚ) - -18| / 2) = 39 / 2 := by norm_num
  rw [hguess]
  exact lriC1tp

/-- C1 counterexample: for the window construction cC1 with one gap, under
default boundary conditions, r_factor converges to 53/11 while
temperature_profile converges to the resistance vector sNT1 whose sum is
64/11: the two differ by 1, far beyond the 0.001 tolerance, because
r_factor seeds the iteration at the fixed guesses (15, 273.15) while
temperature_profile seeds it from the boundary temperatures
(19.5, 274.65). -/
theorem c1_counterexample :
    WindowRFactor airU opsU cC1 (53 / 11) ∧
    WindowTemperatureProfile airU opsU cC1 (-18) 21 6.7 1 90 101325
      (temperatureProfileFromRValues sNT1 (-18) 21, sNT1) ∧
    ¬ (|sNT1.sum - 53 / 11| ≤ 0.001) :=
  ⟨rfRunC1, tpRunC1, by norm_num [sNT1, abs_of_nonneg]⟩

/-- C1 (amended): for every window construction with at least one gap,
r_factor equals the sum of its own converged ResistanceVector (obtained
from the seed at the fixed default guesses 15 and 273.15), and the
converged ResistanceVector returned by temperature_profile under the
default boundary conditions satisfies the loop's own stopping criterion:
its sum is within 0.001 of the sum of the previous iterate (or it is the
seed itself with sum at most 0.001).  The sum of temperature_profile's
vector need not be within 0.001 of r_factor, because the two entry points
seed the iteration differently. -/
theorem c1_convergence_amended :
    (∀ (air : AirModel) (ops : RealOps) (c : WindowConstruction) (v : ℚ),
      WindowRFactor air ops c v → gapCount c.materials ≠ 0 →
      ∃ seed emiss rVals,
        layeredRValueInitial c.materials (gapCount c.materials) 15 273.15 6.7 =
          some (seed, emiss) ∧
        SolveLoop (windowSolveStep air ops c.materials emiss 1 90 101325
          (-18) 21) 0 seed rVals ∧ v = rVals.sum) ∧
    (∀ (air : AirModel) (ops : RealOps) (c : WindowConstruction)
      (T R : List ℚ),
      WindowTemperatureProfile air ops c (-18) 21 6.7 1 90 101325 (T, R) →
      gapCount c.materials ≠ 0 →
      ∃ seed emiss,
        layeredRValueInitial c.materials (gapCount c.materials)
          (if |(21 : ℚ) - -18| / 2 < 1 then 1 else |(21 : ℚ) - -18| / 2)
          ((21 + -18) / 2 + 273.15) 6.7 = some (seed, emiss) ∧
        ((R = seed ∧ |seed.sum - 0| ≤ 0.001) ∨
          ∃ prev, R = windowSolveStep air ops c.materials emiss 1 90 101325
            (-18) 21 prev ∧ |R.sum - prev.sum| ≤ 0.001)) := by
  constructor
  · intro air ops c v h hgap
    rw [WindowRFactor, if_neg hgap] at h
    exact h
  · intro air ops c T R h hgap
    rw [WindowTemperatureProfile, if_neg (by norm_num)] at h
    rw [WindowTemperatureProfileAt, if_neg hgap] at h
    obtain ⟨seed, emiss, rVals, hs, hloop, heq⟩ := h
    have hR : R = rVals := congrArg Prod.snd heq
    subst hR
    refine ⟨seed, emiss, hs, ?_⟩
    rcases solveLoop_post _ _ _ _ hloop with ⟨heq2, hle⟩ | ⟨prev, heq2, hle⟩
    · exact Or.inl ⟨heq2, hle⟩
    · exact Or.inr ⟨prev, heq2, hle⟩

/-- Closed witness for C1 applying the amended theorem to the concrete
temperature_profile run of cC1. -/
theorem c1_convergence_amended_witness :
    ∃ seed emiss,
      layeredRValueInitial cC1.materials (gapCount cC1.materials)
        (if |(21 : ℚ) - -18| / 2 < 1 then 1 else |(21 : ℚ) - -18| / 2)
        ((21 + -18) / 2 + 273.15) 6.7 = some (seed, emiss) ∧
      ((sNT1 = seed ∧ |seed.sum - 0| ≤ 0.001) ∨
        ∃ prev, sNT1 = windowSolveStep airU opsU cC1.materials emiss 1 90
          101325 (-18) 21 prev ∧ |sNT1.sum - prev.sum| ≤ 0.001) :=
  c1_convergence_amended.2 airU opsU cC1
    (temperatureProfileFromRValues sNT1 (-18) 21) sNT1 tpRunC1
    (by rw [show cC1.materials = matsC1 from rfl, gapCount_matsC1]; norm_num)

theorem validateLayers_head (n i : ℕ) (g h : Bool) (b : EnergyMaterial)
    (rest : List EnergyMaterial)
    (hv : validateLayers n i g h (b :: rest) = true) :
    (b.isGas = true → g = true) ∧ (b.isGlazing = true → g = false) ∧
      (b.isShade = true → (i = 0 ∨ g = true)) ∧
      (b.isSimpleGlazSys = true → n = 1) ∧ b.isOpaqueM = false := by
  cases b <;>
    simp [validateLayers, EnergyMaterial.isGas, EnergyMaterial.isGlazing,
      EnergyMaterial.isShade, EnergyMaterial.isSimpleGlazSys,
      EnergyMaterial.isOpaqueM] at hv ⊢ <;> tauto

theorem validateLayers_rec (n i : ℕ) (g h : Bool) (m : EnergyMaterial)
    (rest : List EnergyMaterial)
    (hv : validateLayers n i g h (m :: rest) = true) :
    ∃ g' h', validateLayers n (i + 1) g' h' rest = true ∧
      (m.isSimpleGlazSys = false → g' = m.isGlazing) := by
  cases m <;> simp [validateLayers] at hv
  case Glazing => exact ⟨true, h, hv.2, fun _ => rfl⟩
  case SimpleGlazSys => exact ⟨g, h, hv.2, fun hf => Bool.noConfusion hf⟩
  case Gas => exact ⟨false, h, hv.2, fun _ => rfl⟩
  case Shade => exact ⟨false, true, by tauto, fun _ => rfl⟩

theorem validateLayers_count :
    ∀ (rest : List EnergyMaterial) (n i : ℕ) (g h : Bool),
      validateLayers n i g h rest = true →
      countShades rest + (if h then 1 else 0) ≤ 1 := by
  intro rest
  induction rest with
  | nil =>
    intro n i g h _
    cases h <;> simp [countShades]
  | cons m rest ih =>
    intro n i g h hv
    cases m <;> simp [validateLayers] at hv <;>
      simp [countShades, EnergyMaterial.isShade]
    case Glazing r e eb =>
      exact ih n (i + 1) true h hv.2
    case SimpleGlazSys r =>
      exact ih n (i + 1) g h hv.2
    case Gas u uA =>
      exact ih n (i + 1) false h hv.2
    case Shade e rE rI rB =>
      have hh : h = false := by tauto
      have := ih n (i + 1) false true (by tauto)
      simp at this
      subst hh
      simp
      omega

theorem validateLayers_simpleAlone :
    ∀ (rest : List EnergyMaterial) (n i : ℕ) (g h : Bool),
      validateLayers n i g h rest = true →
      ∀ m ∈ rest, m.isSimpleGlazSys = true → n = 1 := by
  intro rest
  induction rest with
  | nil => intro n i g h _ m hm; exact absurd hm (List.not_mem_nil m)
  | cons m0 rest ih =>
    intro n i g h hv m hm hsimple
    rcases List.mem_cons.mp hm with rfl | hm
    · cases m <;> simp [EnergyMaterial.isSimpleGlazSys] at hsimple <;>
        simp [validateLayers] at hv
      exact hv.1
    · obtain ⟨g', h', hrec, _⟩ := validateLayers_rec n i g h m0 rest hv
      exact ih n (i + 1) g' h' hrec m hm hsimple

theorem matKind (m : EnergyMaterial) :
    m.isOpaqueM = true ∨ m.isGlazing = true ∨ m.isSimpleGlazSys = true ∨
      m.isGas = true ∨ m.isShade = true := by
  cases m <;> simp [EnergyMaterial.isOpaqueM, EnergyMaterial.isGlazing,
    EnergyMaterial.isSimpleGlazSys, EnergyMaterial.isGas,
    EnergyMaterial.isShade]

theorem isGas_not_isGlazing (m : EnergyMaterial) (h : m.isGas = true) :
    m.isGlazing = false := by
  cases m <;> simp_all [EnergyMaterial.isGas, EnergyMaterial.isGlazing]

theorem isShade_not_isGlazing (m : EnergyMaterial) (h : m.isShade = true) :
    m.isGlazing = false := by
  cases m <;> simp_all [EnergyMaterial.isShade, EnergyMaterial.isGlazing]

theorem validateLayers_pairOK :
    ∀ (rest : List EnergyMaterial) (n i : ℕ) (g h : Bool), 2 ≤ n →
      validateLayers n i g h rest = true →
      ∀ (j : ℕ) (a b : EnergyMaterial), rest.get? j = some a →
        rest.get? (j + 1) = some b → PairOK a b := by
  intro rest
  induction rest with
  | nil =>
    intro n i g h _ _ j a b ha _
    simp at ha
  | cons m rest ih =>
    intro n i g h hn hv j a b ha hb
    obtain ⟨g', h', hrec, hflag⟩ := validateLayers_rec n i g h m rest hv
    cases j with
    | succ j' => exact ih n (i + 1) g' h' hn hrec j' a b ha hb
    | zero =>
      have ham : a = m := by simpa using ha.symm
      subst ham
      obtain ⟨rest', rfl⟩ : ∃ rest', rest = b :: rest' := by
        cases rest with
        | nil => simp at hb
        | cons x xs =>
          have hx : x = b := by simpa using hb
          exact ⟨xs, by rw [hx]⟩
      have hhead := validateLayers_head n (i + 1) g' h' b rest' hrec
      have houter := validateLayers_head n i g h a (b :: rest') hv
      have hSa : a.isSimpleGlazSys = false := by
        cases hcase : a.isSimpleGlazSys
        · rfl
        · have := houter.2.2.2.1 hcase
          omega
      have hSb : b.isSimpleGlazSys = false := by
        cases hcase : b.isSimpleGlazSys
        · rfl
        · have := hhead.2.2.2.1 hcase
          omega
      have hg' : g' = a.isGlazing := hflag hSa
      have hbGlaz : g' = false → b.isGlazing = true := by
        intro hgf
        rcases matKind b with hk | hk | hk | hk | hk
        · exact absurd hk (by rw [hhead.2.2.2.2]; simp)
        · exact hk
        · exact absurd hk (by rw [hSb]; simp)
        · exact absurd (hhead.1 hk) (by rw [hgf]; simp)
        · rcases hhead.2.2.1 hk with h0 | hgt
          · exact absurd h0 (Nat.succ_ne_zero i)
          · exact absurd hgt (by rw [hgf]; simp)
      refine ⟨?_, ?_, ?_, ?_, ?_⟩
      · intro hbg
        rw [← hg']
        exact hhead.1 hbg
      · intro hbg
        rw [← hg']
        exact hhead.2.1 hbg
      · intro hbs
        rcases hhead.2.2.1 hbs with h0 | hgt
        · exact absurd h0 (Nat.succ_ne_zero i)
        · rw [← hg']
          exact hgt
      · intro hag
        exact hbGlaz (by rw [hg', isGas_not_isGlazing a hag])
      · intro has
        exact hbGlaz (by rw [hg', isShade_not_isGlazing a has])

theorem opaqueMkq_isSome (mats : List EnergyMaterial) :
    (OpaqueConstruction.mk? mats).isSome = validateOpaqueMaterials mats := by
  rw [OpaqueConstruction.mk?]
  cases hb : validateOpaqueMaterials mats <;> simp [hb]

theorem windowMkq_isSome (mats : List EnergyMaterial) :
    (WindowConstruction.mk? mats).isSome = validateWindowMaterials mats := by
  rw [WindowConstruction.mk?]
  cases hb : validateWindowMaterials mats <;> simp [hb]

theorem opaqueMkq_eq_none (mats : List EnergyMaterial) :
    OpaqueConstruction.mk? mats = Option.none ↔
      validateOpaqueMaterials mats = false := by
  rw [OpaqueConstruction.mk?]
  cases hb : validateOpaqueMaterials mats <;> simp [hb]

theorem windowMkq_eq_none (mats : List EnergyMaterial) :
    WindowConstruction.mk? mats = Option.none ↔
      validateWindowMaterials mats = false := by
  rw [WindowConstruction.mk?]
  cases hb : validateWindowMaterials mats <;> simp [hb]

theorem validateWindow_parts (mats : List EnergyMaterial)
    (hv : validateWindowMaterials mats = true) :
    0 < mats.length ∧ mats.length ≤ 8 ∧
      (mats.headD matDefault).isGas = false ∧
      (mats.getLastD matDefault).isGas = false ∧
      validateLayers mats.length 0 false false mats = true := by
  simp only [validateWindowMaterials, Bool.and_eq_true, decide_eq_true_eq,
    Bool.not_eq_true'] at hv
  tauto

/-- C8: assigning a materials list to either construction kind succeeds only
when it contains between 1 and 10 layers: an empty list is rejected and a
list of more than 10 layers is rejected, with the construction left
uncreated (the window setter is in fact stricter, capping at 8 layers, which
still keeps every accepted list within 1..10). -/
theorem c8_layer_count_bounds (mats : List EnergyMaterial) :
    ((OpaqueConstruction.mk? mats).isSome →
      1 ≤ mats.length ∧ mats.length ≤ 10) ∧
    ((WindowConstruction.mk? mats).isSome →
      1 ≤ mats.length ∧ mats.length ≤ 10) ∧
    (mats = [] → OpaqueConstruction.mk? mats = Option.none ∧
      WindowConstruction.mk? mats = Option.none) ∧
    (10 < mats.length → OpaqueConstruction.mk? mats = Option.none ∧
      WindowConstruction.mk? mats = Option.none) := by
  refine ⟨?_, ?_, ?_, ?_⟩
  · intro h
    rw [opaqueMkq_isSome] at h
    simp only [validateOpaqueMaterials, Bool.and_eq_true,
      decide_eq_true_eq] at h
    omega
  · intro h
    rw [windowMkq_isSome] at h
    have := (validateWindow_parts mats h).1
    have := (validateWindow_parts mats h).2.1
    omega
  · rintro rfl
    exact ⟨rfl, rfl⟩
  · intro h
    constructor
    · rw [opaqueMkq_eq_none]
      simp only [validateOpaqueMaterials, Bool.and_eq_false_iff,
        decide_eq_false_iff_not]
      right
      omega
    · rw [windowMkq_eq_none]
      simp only [validateWindowMaterials, Bool.and_eq_false_iff,
        decide_eq_false_iff_not]
      left
      left
      left
      right
      omega

/-- Closed witness for C8 at the empty materials list. -/
theorem c8_layer_count_bounds_witness :
    OpaqueConstruction.mk? [] = Option.none ∧
      WindowConstruction.mk? [] = Option.none :=
  (c8_layer_count_bounds []).2.2.1 rfl

theorem validateWindow_pairOK (mats : List EnergyMaterial)
    (hv : validateWindowMaterials mats = true) (j : ℕ) (a b : EnergyMaterial)
    (ha : mats.get? j = some a) (hb : mats.get? (j + 1) = some b) :
    PairOK a b := by
  have hlen : j + 1 < mats.length := (List.get?_eq_some.mp hb).1
  exact validateLayers_pairOK mats mats.length 0 false false (by omega)
    (validateWindow_parts mats hv).2.2.2.2 j a b ha hb

/-- C9: constructing a WindowConstruction produces no construction whenever
the layer list has a gas layer first or last, a gas layer not immediately
preceded by a glazing layer, two adjacent glazing layers, a shade layer
(other than the first layer) not immediately preceded by a glazing layer,
more than one shade/blind layer, or a simple glazing system together with
any other layer; the mk? constructor runs this validation and returns no
construction (so no solve is ever reached). -/
theorem c9_window_validator_rejections (mats : List EnergyMaterial) :
    (∀ m, mats.head? = some m → m.isGas = true →
      WindowConstruction.mk? mats = Option.none) ∧
    (∀ m, mats.getLast? = some m → m.isGas = true →
      WindowConstruction.mk? mats = Option.none) ∧
    (∀ j a, mats.get? j = some a → a.isGas = true →
      (∀ p, mats.get? (j - 1) = some p → p.isGlazing = false) →
      WindowConstruction.mk? mats = Option.none) ∧
    (∀ j a b, mats.get? j = some a → mats.get? (j + 1) = some b →
      a.isGlazing = true → b.isGlazing = true →
      WindowConstruction.mk? mats = Option.none) ∧
    (∀ j a, mats.get? j = some a → a.isShade = true → j ≠ 0 →
      (∀ p, mats.get? (j - 1) = some p → p.isGlazing = false) →
      WindowConstruction.mk? mats = Option.none) ∧
    (2 ≤ countShades mats → WindowConstruction.mk? mats = Option.none) ∧
    (∀ m, m ∈ mats → m.isSimpleGlazSys = true → 2 ≤ mats.length →
      WindowConstruction.mk? mats = Option.none) := by
  by_cases hv : validateWindowMaterials mats = true
  case neg =>
    have hnone : WindowConstruction.mk? mats = Option.none :=
      (windowMkq_eq_none mats).mpr (Bool.eq_false_iff.mpr hv)
    exact ⟨fun _ _ _ => hnone, fun _ _ _ => hnone, fun _ _ _ _ _ => hnone,
      fun _ _ _ _ _ _ _ => hnone, fun _ _ _ _ _ _ => hnone, fun _ => hnone,
      fun _ _ _ _ => hnone⟩
  case pos =>
    refine ⟨?_, ?_, ?_, ?_, ?_, ?_, ?_⟩
    · intro m hm hgas
      exfalso
      cases mats with
      | nil => cases hm
      | cons m0 rest =>
        have hm0 : m0 = m := by simpa using hm
        subst hm0
        exact absurd hgas (by simpa using (validateWindow_parts _ hv).2.2.1)
    · intro m hm hgas
      exfalso
      have hfact := (validateWindow_parts mats hv).2.2.2.1
      rw [List.getLastD_eq_getLast?, hm] at hfact
      simp at hfact
      simp [hfact] at hgas
    · intro j a ha hgas hpred
      exfalso
      cases j with
      | zero =>
        cases mats with
        | nil => cases ha
        | cons m0 rest =>
          have hm0 : m0 = a := by simpa using ha
          subst hm0
          exact absurd hgas (by simpa using (validateWindow_parts _ hv).2.2.1)
      | succ j' =>
        have hlt : j' + 1 < mats.length := (List.get?_eq_some.mp ha).1
        have hlt' : j' < mats.length := by omega
        have hp : mats.get? j' = some (mats.get ⟨j', hlt'⟩) :=
          List.get?_eq_get hlt'
        have hpair := validateWindow_pairOK mats hv j' _ a hp ha
        have hglaz := hpair.1 hgas
        have hfalse := hpred _ hp
        rw [List.get_eq_getElem] at hglaz
        simp [hglaz] at hfalse
    · intro j a b ha hb hag hbg
      exfalso
      have hpair := validateWindow_pairOK mats hv j a b ha hb
      have := hpair.2.1 hbg
      simp [hag] at this
    · intro j a ha hshade hj hpred
      exfalso
      cases j with
      | zero => exact hj rfl
      | succ j' =>
        have hlt : j' + 1 < mats.length := (List.get?_eq_some.mp ha).1
        have hlt' : j' < mats.length := by omega
        have hp : mats.get? j' = some (mats.get ⟨j', hlt'⟩) :=
          List.get?_eq_get hlt'
        have hpair := validateWindow_pairOK mats hv j' _ a hp ha
        have hglaz := hpair.2.2.1 hshade
        have hfalse := hpred _ hp
        rw [List.get_eq_getElem] at hglaz
        simp [hglaz] at hfalse
    · intro hcount
      exfalso
      have := validateLayers_count mats mats.length 0 false false
        (validateWindow_parts mats hv).2.2.2.2
      simp at this
      omega
    · intro m hm hsimple hlen
      exfalso
      have := validateLayers_simpleAlone mats mats.length 0 false false
        (validateWindow_parts mats hv).2.2.2.2 m hm hsimple
      omega

/-- Closed witness for C9: a lone gas layer is rejected by the
constructor. -/
theorem c9_window_validator_rejections_witness :
    WindowConstruction.mk? [gasM] = Option.none :=
  (c9_window_validator_rejections [gasM]).1 gasM rfl rfl

theorem isGlazing_emissivity (m : EnergyMaterial) (h : m.isGlazing = true) :
    ∃ x, m.emissivity = some x := by
  cases m <;> simp_all [EnergyMaterial.isGlazing, EnergyMaterial.emissivity]

theorem isGlazing_emissivityBack (m : EnergyMaterial)
    (h : m.isGlazing = true) : ∃ x, m.emissivityBack = some x := by
  cases m <;> simp_all [EnergyMaterial.isGlazing, EnergyMaterial.emissivityBack]

theorem isGlazing_fallback (m : EnergyMaterial) (h : m.isGlazing = true) :
    ∃ x, emissivityBackFallback m = some x := by
  cases m <;>
    simp_all [EnergyMaterial.isGlazing, emissivityBackFallback,
      EnergyMaterial.emissivityBack, EnergyMaterial.emissivity]

theorem validateLayers_noOpaque :
    ∀ (rest : List EnergyMaterial) (n i : ℕ) (g h : Bool),
      validateLayers n i g h rest = true →
      ∀ m ∈ rest, m.isOpaqueM = false := by
  intro rest
  induction rest with
  | nil => intro n i g h _ m hm; exact absurd hm (List.not_mem_nil m)
  | cons m0 rest ih =>
    intro n i g h hv m hm
    rcases List.mem_cons.mp hm with rfl | hm
    · exact (validateLayers_head n i g h m rest hv).2.2.2.2
    · obtain ⟨g', h', hrec, _⟩ := validateLayers_rec n i g h m0 rest hv
      exact ih n (i + 1) g' h' hrec m hm

theorem seedEntriesAux_length (mats : List EnergyMaterial) (dt avg : ℚ) :
    ∀ (rest : List EnergyMaterial) (i : ℕ) (rs : List ℚ)
      (es : List EmissEntry),
      seedEntriesAux mats dt avg i rest = some (rs, es) →
      rs.length = rest.length ∧ es.length = rest.length := by
  intro rest
  induction rest with
  | nil =>
    intro i rs es h
    simp [seedEntriesAux] at h
    simp [← h.1, ← h.2]
  | cons m rest ih =>
    intro i rs es h
    rw [seedEntriesAux] at h
    cases hE : seedGapEntry mats dt avg i m with
    | none => rw [hE] at h; simp at h
    | some re =>
      rw [hE] at h
      cases hR : seedEntriesAux mats dt avg (i + 1) rest with
      | none => rw [hR] at h; simp at h
      | some rses =>
        rw [hR] at h
        obtain ⟨r0, e0⟩ := re
        obtain ⟨rs', es'⟩ := rses
        simp at h
        obtain ⟨hrs, hes⟩ := h
        have := ih (i + 1) rs' es' hR
        simp [← hrs, ← hes, this.1, this.2]

theorem seedEntriesAux_gas (mats : List EnergyMaterial) (dt avg : ℚ) :
    ∀ (rest : List EnergyMaterial) (i : ℕ) (rs : List ℚ)
      (es : List EmissEntry),
      seedEntriesAux mats dt avg i rest = some (rs, es) →
      ∀ (j : ℕ) (u : ℚ → ℚ → ℚ → ℚ → ℚ)
        (uA : ℚ → ℚ → ℚ → ℚ → ℚ → ℚ → ℚ → ℚ),
        rest.get? j = some (EnergyMaterial.Gas u uA) →
        ∃ eb ef, rs.get? j = some (1 / u dt eb ef avg) ∧
          es.get? j = some (EmissEntry.pair eb ef) := by
  intro rest
  induction rest with
  | nil =>
    intro i rs es _ j u uA hj
    simp at hj
  | cons m rest ih =>
    intro i rs es h j u uA hj
    rw [seedEntriesAux] at h
    cases hE : seedGapEntry mats dt avg i m with
    | none => rw [hE] at h; simp at h
    | some re =>
      rw [hE] at h
      cases hR : seedEntriesAux mats dt avg (i + 1) rest with
      | none => rw [hR] at h; simp at h
      | some rses =>
        rw [hR] at h
        obtain ⟨r0, e0⟩ := re
        obtain ⟨rs', es'⟩ := rses
        simp at h
        obtain ⟨hrs, hes⟩ := h
        cases j with
        | succ j' =>
          have := ih (i + 1) rs' es' hR j' u uA (by simpa using hj)
          simpa [← hrs, ← hes] using this
        | zero =>
          have hm : m = EnergyMaterial.Gas u uA := by simpa using hj
          subst hm
          unfold seedGapEntry at hE
          simp only [Option.bind_eq_bind, Option.bind_eq_some] at hE
          obtain ⟨mNext, hNext, ef, hEf, mPrev, hPrev, eb, hEb, hout⟩ := hE
          have hpair := Option.some.inj hout
          injection hpair with h1 h2
          refine ⟨eb, ef, ?_, ?_⟩
          · rw [← hrs]
            simp only [List.get?]
            rw [← h1]
          · rw [← hes]
            simp only [List.get?]
            rw [← h2]

theorem seedEntriesAux_isSome (mats : List EnergyMaterial)
    (hv : validateWindowMaterials mats = true)
    (hss : isSingleShade mats = false) (dt avg : ℚ) :
    ∀ (rest : List EnergyMaterial) (i : ℕ), mats.drop i = rest →
      (seedEntriesAux mats dt avg i rest).isSome := by
  intro rest
  induction rest with
  | nil =>
    intro i _
    simp [seedEntriesAux]
  | cons m rest ih =>
    intro i hdrop
    have hge : mats.get? i = some m := by
      have h0 := List.get?_drop mats i 0
      rw [hdrop] at h0
      simpa using h0.symm
    have hdrop' : mats.drop (i + 1) = rest := by
      have h1 : mats.drop (i + 1) = (mats.drop i).drop 1 := by
        rw [List.drop_drop]
      rw [h1, hdrop]
      rfl
    have hrec := ih (i + 1) hdrop'
    have hlen : i < mats.length := (List.get?_eq_some.mp hge).1
    have parts := validateWindow_parts mats hv
    have hentry : (seedGapEntry mats dt avg i m).isSome := by
      cases m with
      | Opaque r a =>
        exfalso
        have := validateLayers_noOpaque mats mats.length 0 false false
          parts.2.2.2.2 _ (List.get?_mem hge)
        simp [EnergyMaterial.isOpaqueM] at this
      | Glazing r e eb => simp [seedGapEntry]
      | SimpleGlazSys r => simp [seedGapEntry]
      | Gas u uA =>
        have hi0 : i ≠ 0 := by
          intro h0
          subst h0
          cases mats with
          | nil => simp at hge
          | cons m0 tail =>
            have hm0 : m0 = EnergyMaterial.Gas u uA := by simpa using hge
            subst hm0
            simpa [EnergyMaterial.isGas] using parts.2.2.1
        have hil : i ≠ mats.length - 1 := by
          intro hl
          have hlast : mats.getLast? = some (EnergyMaterial.Gas u uA) := by
            rw [List.getLast?_eq_get?, ← hl]
            exact hge
          have hfact := parts.2.2.2.1
          rw [List.getLastD_eq_getLast?, hlast] at hfact
          simpa [EnergyMaterial.isGas] using hfact
        have hi1 : i + 1 < mats.length := by omega
        have hnext : mats.get? (i + 1) = some (mats.get ⟨i + 1, hi1⟩) :=
          List.get?_eq_get hi1
        have hpairN := validateWindow_pairOK mats hv i _ _ hge hnext
        have hbglaz : (mats.get ⟨i + 1, hi1⟩).isGlazing = true :=
          hpairN.2.2.2.1 rfl
        obtain ⟨ef, hef⟩ := isGlazing_emissivity _ hbglaz
        have hiprev : i - 1 < mats.length := by omega
        have hprevg : mats.get? (i - 1) = some (mats.get ⟨i - 1, hiprev⟩) :=
          List.get?_eq_get hiprev
        have hpairP := validateWindow_pairOK mats hv (i - 1) _ _ hprevg
          (by rw [show i - 1 + 1 = i by omega]; exact hge)
        have hpglaz := hpairP.1 rfl
        obtain ⟨eb, heb⟩ := isGlazing_fallback _ hpglaz
        have hnext2 : mats[i + 1]? = some (mats.get ⟨i + 1, hi1⟩) := by
          simpa using hnext
        have hprevg2 : mats[i - 1]? = some (mats.get ⟨i - 1, hiprev⟩) := by
          simpa using hprevg
        simp only [List.get_eq_getElem] at hef heb
        simp [seedGapEntry, hnext2, hef, prevMaterial, hi0, hprevg2, heb]
      | Shade e rE rI rB =>
        by_cases hi0 : i = 0
        · subst hi0
          have hlen2 : 2 ≤ mats.length := by
            cases mats with
            | nil => simp at hge
            | cons m0 tail =>
              cases tail with
              | nil =>
                have hm0 : m0 = EnergyMaterial.Shade e rE rI rB := by
                  simpa using hge
                subst hm0
                simp [isSingleShade, EnergyMaterial.isShade] at hss
              | cons m1 t2 => simp
          have hi1 : 0 + 1 < mats.length := by omega
          have hnext : mats.get? 1 = some (mats.get ⟨1, hi1⟩) :=
            List.get?_eq_get hi1
          have hpairN := validateWindow_pairOK mats hv 0 _ _ hge hnext
          have hbglaz := hpairN.2.2.2.2 rfl
          obtain ⟨ef, hef⟩ := isGlazing_emissivity _ hbglaz
          have hnext2 : mats[1]? = some (mats.get ⟨1, hi1⟩) := by
            simpa using hnext
          simp only [List.get_eq_getElem] at hef
          simp [seedGapEntry, hnext2, hef]
        · have hiprev : i - 1 < mats.length := by omega
          have hprevg : mats.get? (i - 1) = some (mats.get ⟨i - 1, hiprev⟩) :=
            List.get?_eq_get hiprev
          have hpairP := validateWindow_pairOK mats hv (i - 1) _ _ hprevg
            (by rw [show i - 1 + 1 = i by omega]; exact hge)
          have hpglaz := hpairP.2.2.1 rfl
          obtain ⟨eb, heb⟩ := isGlazing_emissivityBack _ hpglaz
          have hprevg2 : mats[i - 1]? = some (mats.get ⟨i - 1, hiprev⟩) := by
            simpa using hprevg
          by_cases hil : i = mats.length - 1
          · simp only [List.get_eq_getElem] at heb
            simp only [seedGapEntry]
            rw [if_neg hi0, if_pos hil]
            simp [prevMaterial, hi0, hprevg2, heb]
          · have hi1 : i + 1 < mats.length := by omega
            have hnext : mats.get? (i + 1) = some (mats.get ⟨i + 1, hi1⟩) :=
              List.get?_eq_get hi1
            have hnext2 : mats[i + 1]? = some (mats.get ⟨i + 1, hi1⟩) := by
              simpa using hnext
            have hpairN := validateWindow_pairOK mats hv i _ _ hge hnext
            have hbglaz := hpairN.2.2.2.2 rfl
            obtain ⟨ef, hef⟩ := isGlazing_emissivity _ hbglaz
            simp only [List.get_eq_getElem] at hef heb
            simp [seedGapEntry, hi0, hil, prevMaterial, hnext2, hef, hprevg2,
              heb]
    obtain ⟨⟨r0, e0⟩, hre⟩ := Option.isSome_iff_exists.mp hentry
    obtain ⟨⟨rs', es'⟩, hrses⟩ := Option.isSome_iff_exists.mp hrec
    rw [seedEntriesAux, hre, hrses]
    simp

theorem layeredRValueInitial_isSome (mats : List EnergyMaterial) (gc : ℕ)
    (dtg avg ws : ℚ) (hv : validateWindowMaterials mats = true)
    (hss : isSingleShade mats = false) :
    (layeredRValueInitial mats gc dtg avg ws).isSome := by
  have h := seedEntriesAux_isSome mats hv hss (dtg / (gc : ℚ)) avg mats 0 rfl
  obtain ⟨⟨rs, es⟩, hre⟩ := Option.isSome_iff_exists.mp h
  rw [layeredRValueInitial]
  rw [hre]
  simp

/-- C10 counterexample: the single-shade list is accepted by the
WindowConstruction materials validator, has gap_count 1 (so r_factor takes
the iterative path), yet the initial layered resistance build fails: the
adjacent-emissivity lookup materials[i + 1] for the exterior-shade branch
is out of bounds. -/
theorem c10_counterexample :
    validateWindowMaterials [shadeM] = true ∧ gapCount [shadeM] = 1 ∧
    layeredRValueInitial [shadeM] (gapCount [shadeM]) 15 273.15 6.7 =
      Option.none :=
  ⟨rfl, rfl, rfl⟩

/-- C10 (amended): for every materials list accepted by the
WindowConstruction materials validator, other than a list consisting of a
single shade/blind layer alone, the initial layered resistance build of
r_factor performs only in-bounds indexing: every adjacent-emissivity lookup
materials[i + 1] or materials[i - 1] resolves to an existing layer and the
build returns a value (and the gap-free closed form's materials[0] exists
since the list is nonempty).  For the excluded single-shade list the
materials[i + 1] lookup is out of bounds (see the counterexample). -/
theorem c10_in_bounds_amended (mats : List EnergyMaterial) (gc : ℕ)
    (dtg avg ws : ℚ) (hv : validateWindowMaterials mats = true)
    (hss : isSingleShade mats = false) :
    (layeredRValueInitial mats gc dtg avg ws).isSome ∧ 0 < mats.length :=
  ⟨layeredRValueInitial_isSome mats gc dtg avg ws hv hss,
    (validateWindow_parts mats hv).1⟩

/-- Closed witness for C10 at the single-pane window list. -/
theorem c10_in_bounds_amended_witness :
    (layeredRValueInitial [glz0] 0 15 273.15 6.7).isSome ∧
      0 < ([glz0] : List EnergyMaterial).length :=
  c10_in_bounds_amended [glz0] 0 15 273.15 6.7 rfl rfl

theorem if_lt_one_eq_max (x : ℚ) :
    (if x < 1 then (1 : ℚ) else x) = max 1 x := by
  by_cases h : x < 1
  · rw [if_pos h, max_eq_left h.le]
  · rw [if_neg h, max_eq_right (not_lt.mp h)]

/-- C2 (amended): the seed ResistanceVector of the iterative solve is built
from an overall temperature-drop guess and a mean-temperature guess, and
each gas gap's seed entry is evaluated at the per-gap drop
delta_t_guess / gap_count, not at the full guess (first conjunct);
temperature_profile passes guess = max(1, |T_in - T_out| / 2) and mean
(T_in + T_out) / 2 + 273.15 (second conjunct), while r_factor and r_value
pass the fixed defaults 15 and 273.15 regardless of the boundary
temperatures (third and fourth conjuncts). -/
theorem c2_seed_amended :
    (∀ (mats : List EnergyMaterial) (gc : ℕ) (dtg avg ws : ℚ)
        (seed : List ℚ) (emiss : List EmissEntry) (i : ℕ)
        (u : ℚ → ℚ → ℚ → ℚ → ℚ) (uA : ℚ → ℚ → ℚ → ℚ → ℚ → ℚ → ℚ → ℚ),
      layeredRValueInitial mats gc dtg avg ws = some (seed, emiss) →
      mats.get? i = some (EnergyMaterial.Gas u uA) →
      ∃ eb ef, seed.get? (i + 1) = some (1 / u (dtg / (gc : ℚ)) eb ef avg) ∧
        emiss.get? i = some (EmissEntry.pair eb ef)) ∧
    (∀ (air : AirModel) (ops : RealOps) (c : WindowConstruction)
        (tOut tIn ws height angle pressure : ℚ) (res : List ℚ × List ℚ),
      gapCount c.materials ≠ 0 →
      WindowTemperatureProfileAt air ops c tOut tIn ws height angle pressure
        res →
      ∃ seed emiss rVals,
        layeredRValueInitial c.materials (gapCount c.materials)
          (max 1 (|tIn - tOut| / 2)) ((tIn + tOut) / 2 + 273.15) ws =
          some (seed, emiss) ∧
        SolveLoop (windowSolveStep air ops c.materials emiss height angle
          pressure tOut tIn) 0 seed rVals ∧
        res = (temperatureProfileFromRValues rVals tOut tIn, rVals)) ∧
    (∀ (air : AirModel) (ops : RealOps) (c : WindowConstruction) (v : ℚ),
      gapCount c.materials ≠ 0 → WindowRFactor air ops c v →
      ∃ seed emiss rVals,
        layeredRValueInitial c.materials (gapCount c.materials) 15 273.15 6.7 =
          some (seed, emiss) ∧
        SolveLoop (windowSolveStep air ops c.materials emiss 1 90 101325
          (-18) 21) 0 seed rVals ∧ v = rVals.sum) ∧
    (∀ (air : AirModel) (ops : RealOps) (c : WindowConstruction) (v : ℚ),
      gapCount c.materials ≠ 0 → WindowRValue air ops c v →
      ∃ seed emiss rVals,
        layeredRValueInitial c.materials (gapCount c.materials) 15 273.15 6.7 =
          some (seed, emiss) ∧
        SolveLoop (windowSolveStep air ops c.materials emiss 1 90 101325
          (-18) 21) 0 seed rVals ∧ v = ((rVals.drop 1).dropLast).sum) := by
  refine ⟨?_, ?_, ?_, ?_⟩
  · intro mats gc dtg avg ws seed emiss i u uA hlri hgas
    simp only [layeredRValueInitial] at hlri
    cases hS : seedEntriesAux mats (dtg / (gc : ℚ)) avg 0 mats with
    | none => rw [hS] at hlri; simp at hlri
    | some rses =>
      rw [hS] at hlri
      obtain ⟨rs, es⟩ := rses
      simp only [Option.bind_eq_bind, Option.some_bind] at hlri
      have hpair := Option.some.inj hlri
      injection hpair with h1 h2
      obtain ⟨eb, ef, hr, he⟩ :=
        seedEntriesAux_gas mats (dtg / (gc : ℚ)) avg mats 0 rs es hS i u uA
          hgas
      refine ⟨eb, ef, ?_, ?_⟩
      · rw [← h1]
        have hleni : i < rs.length := by
          have hL :=
            (seedEntriesAux_length mats (dtg / (gc : ℚ)) avg mats 0 rs es hS).1
          have hi := (List.get?_eq_some.mp hgas).1
          omega
        simp only [List.get?, List.append_eq]
        rw [List.get?_append hleni]
        exact hr
      · rw [← h2]
        exact he
  · intro air ops c tOut tIn ws height angle pressure res hgap h
    rw [WindowTemperatureProfileAt, if_neg hgap] at h
    obtain ⟨seed, emiss, rVals, hs, hloop, heq⟩ := h
    rw [if_lt_one_eq_max] at hs
    exact ⟨seed, emiss, rVals, hs, hloop, heq⟩
  · intro air ops c v hgap h
    rw [WindowRFactor, if_neg hgap] at h
    exact h
  · intro air ops c v hgap h
    rw [WindowRValue, if_neg hgap] at h
    exact h

/-- C2 counterexample: for the two-gap construction cC2 whose gas
conductance reports the delta it receives, the seed gas entries under the
default boundary conditions are 1 / u(19.5 / 2) = 4/39, not the
1 / u(19.5) = 2/39 the claim predicts: the drop guess
max(1, |21 - (-18)| / 2) = 19.5 is divided by the gap count before the gas
u_value call. -/
theorem c2_seed_counterexample :
    (if |(21 : ℚ) - -18| / 2 < 1 then (1 : ℚ) else |(21 : ℚ) - -18| / 2) =
      39 / 2 ∧
    gapCount matsC2 = 2 ∧
    layeredRValueInitial matsC2 (gapCount matsC2) (39 / 2)
      ((21 + -18) / 2 + 273.15) 6.7 = some (seedC2, emissC2) ∧
    seedC2.get? 2 = some (1 / recordDeltaT (39 / 2 / 2) 0 0
      ((21 + -18) / 2 + 273.15)) ∧
    seedC2.get? 2 ≠ some (1 / recordDeltaT (39 / 2) 0 0
      ((21 + -18) / 2 + 273.15)) := by
  refine ⟨by norm_num, by norm_num [gapCount, gapCountAux, matsC2, glz0,
    gasRec], ?_, by norm_num [seedC2, recordDeltaT],
    by norm_num [seedC2, recordDeltaT]⟩
  norm_num [layeredRValueInitial, seedEntriesAux, seedGapEntry, prevMaterial,
    gapCount, gapCountAux, outH, inHSimple, WindowConstruction.insideEmissivity,
    WindowConstruction.outsideEmissivity, emissivityBackFallback,
    EnergyMaterial.emissivityBack, EnergyMaterial.emissivity,
    EnergyMaterial.isSimpleGlazSys, matDefault, matsC2, glz0, gasRec,
    recordDeltaT, seedC2, emissC2, List.getLastD, abs_of_nonneg]

/-- Closed witness for C2 applying the amended seed characterisation to the
concrete construction cC1. -/
theorem c2_seed_amended_witness :
    ∃ eb ef, seedNT.get? 2 = some (1 / (fun _ _ _ tK =>
        if tK < (274 : ℚ) then (1 : ℚ) else 1 / 2) (15 / ((1 : ℕ) : ℚ)) eb ef
        273.15) ∧ emissC1.get? 1 = some (EmissEntry.pair eb ef) :=
  c2_seed_amended.1 matsC1 1 15 273.15 6.7 seedNT emissC1 1 _ _ lriC1 rfl
